import Mathlib

/-!
Verification of the orientation-aware watermark placement core of
`watermark_photos.py` (a batch photo timestamp-watermarking script).

The Python source is shallowly embedded below.  Pure arithmetic helpers
become Lean functions on `ℕ`/`ℤ` (Python's exact integer arithmetic; real
arithmetic from Python floats is modelled exactly over `ℚ`/`ℝ`), external
collaborators (EXIF reading, text measurement, filesystem times, glyph
rasterisation) become explicit parameters, and fallible steps become
`Except`.  Definitions follow the source function by function; the spec's
visual-space notions needed to state the placement properties are defined
separately and marked as such.
-/

namespace WatermarkPhotos

/-! ## Orientation model: `_get_actual_dimensions` -/

/-- Embedding of `_get_actual_dimensions(image)` (source lines 206-244).
The image is represented by its raw size `w × h` together with
`exif : Option ℕ`: `none` models a photo with no (or unreadable) EXIF data,
`some o` models EXIF data whose orientation lookup `exif_data.get(274, 1)`
yields `o` (a missing orientation key yields `some 1`).  The `if` chain
follows the source order. -/
def get_actual_dimensions (w h : ℕ) (exif : Option ℕ) : ℕ × ℕ :=
  match exif with
  | none => (w, h)
  | some o =>
    if o = 3 then (w, h)
    else if o = 6 then (h, w)
    else if o = 8 then (h, w)
    else if o = 5 then (h, w)
    else if o = 7 then (h, w)
    else (w, h)

/-! ## Position calculator: `_adjust_position_for_orientation`,
`_calculate_watermark_position` -/

/-- Embedding of the margin computation of `_calculate_watermark_position`
(source line 184): `margin = max(10, min(actual_width, actual_height) // 100)`. -/
def watermark_margin (aw ah : ℕ) : ℕ := max 10 (min aw ah / 100)

/-- Embedding of `_adjust_position_for_orientation` (source lines 247-297).
Coordinates are `ℤ` because the Python subtractions can go negative.
`exif = none` models the no-EXIF (or exception) default path of line 297;
an orientation value outside 1-8 falls through the `elif` chain to the same
default formula. -/
def adjust_position_for_orientation (w h aw ah tw th m : ℕ) (exif : Option ℕ) :
    ℤ × ℤ :=
  match exif with
  | none => ((w : ℤ) - (tw : ℤ) - (m : ℤ), (h : ℤ) - (th : ℤ) - (m : ℤ))
  | some o =>
    let ax : ℤ := (aw : ℤ) - (tw : ℤ) - (m : ℤ)
    let ay : ℤ := (ah : ℤ) - (th : ℤ) - (m : ℤ)
    if o = 1 then (ax, ay)
    else if o = 2 then ((w : ℤ) - ax - (tw : ℤ), ay)
    else if o = 3 then ((w : ℤ) - ax - (tw : ℤ), (h : ℤ) - ay - (th : ℤ))
    else if o = 4 then (ax, (h : ℤ) - ay - (th : ℤ))
    else if o = 5 then ((h : ℤ) - ay - (th : ℤ), ax)
    else if o = 6 then (ay, (w : ℤ) - ax - (tw : ℤ))
    else if o = 7 then (ay, (w : ℤ) - ((aw : ℤ) - ax - (tw : ℤ)))
    else if o = 8 then ((h : ℤ) - ax - (tw : ℤ), ay)
    else ((w : ℤ) - (tw : ℤ) - (m : ℤ), (h : ℤ) - (th : ℤ) - (m : ℤ))

/-- Embedding of `_calculate_watermark_position` (source lines 160-203).
The text bounding-box size `tw × th` returned by `draw.textbbox` is an
external measurement and is taken as an input (spec: `TextMetrics` is an
opaque input).  The final two `if`s are the source's defensive clamp of
negative coordinates to `max(0, dimension // 20)`. -/
def calculate_watermark_position (w h tw th : ℕ) (exif : Option ℕ) : ℤ × ℤ :=
  let aw := (get_actual_dimensions w h exif).1
  let ah := (get_actual_dimensions w h exif).2
  let m := watermark_margin aw ah
  let p := adjust_position_for_orientation w h aw ah tw th m exif
  (if p.1 < 0 then max 0 ((w / 20 : ℕ) : ℤ) else p.1,
   if p.2 < 0 then max 0 ((h / 20 : ℕ) : ℤ) else p.2)

/-! ## Watermark renderer: `_add_text_with_orientation` -/

/-- The drawing command issued by `_add_text_with_orientation`
(source lines 300-353).
* `direct pos`: the text is drawn straight onto the photo's pixel buffer at
  `pos` (`draw.text(position, text, ...)`), with no rotation.
* `rotatedLayer pos angle`: the text is drawn at `pos` onto a fully
  transparent RGBA scratch layer of the raw canvas size
  (`Image.new('RGBA', image.size, (0, 0, 0, 0))`), the layer is rotated by
  `angle` degrees counterclockwise without resizing its canvas
  (`temp_img.rotate(angle, expand=False)`), and the rotated layer is
  alpha-composited onto the photo at the origin
  (`image.paste(rotated_text, (0, 0), rotated_text)`). -/
inductive RenderAction where
  | direct (pos : ℤ × ℤ)
  | rotatedLayer (pos : ℤ × ℤ) (angle : ℤ)
deriving DecidableEq, Repr

/-- Embedding of the control flow of `_add_text_with_orientation`
(source lines 300-353): orientation 3 takes the scratch-layer path with
`rotate(180)`, orientation 6 with `rotate(90)`, orientation 8 with
`rotate(-90)`; every other orientation value, a photo without EXIF data,
and the exception path all draw directly. -/
def add_text_with_orientation (exif : Option ℕ) (pos : ℤ × ℤ) : RenderAction :=
  match exif with
  | none => .direct pos
  | some o =>
    if o = 3 then .rotatedLayer pos 180
    else if o = 6 then .rotatedLayer pos 90
    else if o = 8 then .rotatedLayer pos (-90)
    else .direct pos

/-- Modelled from the spec: the glyph-rotation angle the spec's orientation
table (§4.3) assigns to each tag — `180°` for tag 3, `90°` for tag 6,
`−90°` for tag 8, and no rotation otherwise. -/
def tag_rotation_angle (o : ℕ) : ℤ :=
  if o = 3 then 180 else if o = 6 then 90 else if o = 8 then -90 else 0

/-! ## Pixel-level semantics of the renderer

Pixels are addressed 0-based, x to the right, y down, as in PIL. -/

/-- The pixel `p` lies on a `w × h` canvas. -/
def in_canvas (w h : ℕ) (p : ℤ × ℤ) : Prop :=
  0 ≤ p.1 ∧ p.1 < (w : ℤ) ∧ 0 ≤ p.2 ∧ p.2 < (h : ℤ)

instance (w h : ℕ) (p : ℤ × ℤ) : Decidable (in_canvas w h p) := by
  unfold in_canvas; infer_instance

/-- The pixel `p` lies in the `tw × th` text bounding box anchored at
`(x, y)`. -/
def in_text_box (x y : ℤ) (tw th : ℕ) (p : ℤ × ℤ) : Prop :=
  x ≤ p.1 ∧ p.1 < x + (tw : ℤ) ∧ y ≤ p.2 ∧ p.2 < y + (th : ℤ)

instance (x y : ℤ) (tw th : ℕ) (p : ℤ × ℤ) :
    Decidable (in_text_box x y tw th p) := by
  unfold in_text_box; infer_instance

/-- Inverse pixel map of PIL `Image.rotate(180, expand=False)` on a `w × h`
canvas: output pixel `p` shows input pixel `(w-1-p.x, h-1-p.y)`.  The 180°
rotation about the canvas centre is an exact pixel permutation. -/
def rotate180_pre (w h : ℕ) (p : ℤ × ℤ) : ℤ × ℤ :=
  ((w : ℤ) - 1 - p.1, (h : ℤ) - 1 - p.2)

/-- Inverse pixel map of PIL `Image.rotate(90, expand=False)` (90°
counterclockwise about the canvas centre, canvas size kept, uncovered area
transparent).  Exact when `w` and `h` have equal parity, in which case the
rotated grid lands on the pixel grid; PIL resamples in the mixed-parity
case. -/
def rotate90_pre (w h : ℕ) (p : ℤ × ℤ) : ℤ × ℤ :=
  (((w : ℤ) + (h : ℤ)) / 2 - 1 - p.2, p.1 + ((h : ℤ) - (w : ℤ)) / 2)

/-- Inverse pixel map of PIL `Image.rotate(-90, expand=False)` (90°
clockwise about the canvas centre), under the same parity proviso as
`rotate90_pre`. -/
def rotate270_pre (w h : ℕ) (p : ℤ × ℤ) : ℤ × ℤ :=
  (p.2 + ((w : ℤ) - (h : ℤ)) / 2, ((w : ℤ) + (h : ℤ)) / 2 - 1 - p.1)

/-- The set of photo pixels covered by the rendered text, for a drawing
command of `_add_text_with_orientation` with text box size `tw × th` on a
`w × h` photo.  A directly drawn pixel must lie on the canvas and in the
text box; a pixel of the rotated scratch layer shows the scratch pixel the
rotation maps onto it, which must have been on the scratch canvas and in
the text box drawn there. -/
def rendered_pixel (tw th w h : ℕ) (act : RenderAction) (p : ℤ × ℤ) : Prop :=
  match act with
  | .direct pos => in_canvas w h p ∧ in_text_box pos.1 pos.2 tw th p
  | .rotatedLayer pos angle =>
    let q := if angle = 180 then rotate180_pre w h p
      else if angle = 90 then rotate90_pre w h p
      else if angle = -90 then rotate270_pre w h p
      else p
    in_canvas w h p ∧ in_canvas w h q ∧ in_text_box pos.1 pos.2 tw th q

instance (tw th w h : ℕ) (act : RenderAction) (p : ℤ × ℤ) :
    Decidable (rendered_pixel tw th w h act p) := by
  unfold rendered_pixel; cases act <;> dsimp only <;> infer_instance

/-- Modelled from the spec: the display transform of the EXIF orientation
tag (spec §4.3 table and glossary "visual space").  `raw_to_visual o w h p`
is the position at which a viewer applying orientation tag `o` to a `w × h`
raw buffer perceives raw pixel `p`; for the dimension-swapping tags
5-8 the visual canvas is `h × w`.  Unknown tags act as the identity
(tag 1). -/
def raw_to_visual (o w h : ℕ) (p : ℤ × ℤ) : ℤ × ℤ :=
  if o = 2 then ((w : ℤ) - 1 - p.1, p.2)
  else if o = 3 then ((w : ℤ) - 1 - p.1, (h : ℤ) - 1 - p.2)
  else if o = 4 then (p.1, (h : ℤ) - 1 - p.2)
  else if o = 5 then (p.2, p.1)
  else if o = 6 then ((h : ℤ) - 1 - p.2, p.1)
  else if o = 7 then ((h : ℤ) - 1 - p.2, (w : ℤ) - 1 - p.1)
  else if o = 8 then (p.2, (w : ℤ) - 1 - p.1)
  else (p.1, p.2)

/-! ## Font sizer: `_calculate_optimal_font_size` -/

/-- Embedding of `_calculate_optimal_font_size(text, img_width, img_height)`
(source lines 94-119).  The Python float constants `0.03`, `0.6` and the
factor `2` are carried exactly over `ℚ`; `int(x ** 0.5)` (truncated real
square root) is `Nat.sqrt ⌊x⌋₊`, since for `0 ≤ x` and integer `n` one has
`n ≤ √x ↔ n² ≤ x ↔ n² ≤ ⌊x⌋` (proved against `Real.sqrt` in
`nat_sqrt_floor_eq_floor_real_sqrt` below).  `textLen` is `len(text)`. -/
def calculate_optimal_font_size (textLen imgW imgH : ℕ) : ℕ :=
  let img_area : ℚ := (imgW : ℚ) * (imgH : ℚ)
  let target_text_area : ℚ := img_area * (3 / 100)
  let font_size : ℕ :=
    Nat.sqrt ⌊target_text_area / ((textLen : ℚ) * (6 / 10) * 2)⌋₊
  max 20 (min font_size (min imgW imgH / 10))

/-! ## Timestamp resolver: `get_photo_taken_time` -/

/-- Embedding of the loop of `get_photo_taken_time` that scans the EXIF
items for the first tag whose `TAGS` name is `DateTimeOriginal`
(source lines 29-32).  `tagName` stands for the external `TAGS.get`
table. -/
def findDateTimeOriginal (tagName : ℕ → Option String)
    (entries : List (ℕ × String)) : Option String :=
  match entries.find? (fun kv => tagName kv.1 == some "DateTimeOriginal") with
  | some kv => some kv.2
  | none => none

/-- The fixed `strptime` pattern of source line 32, denoting
`YYYY:MM:DD HH:MM:SS`. -/
def exifTimePattern : String := "%Y:%m:%d %H:%M:%S"

/-- The first `try` block of `get_photo_taken_time` (source lines 24-35):
open the image and read its EXIF dict (`exifRead`; `.error` models
`Image.open`/`_getexif` raising, `.ok none` models absent/empty EXIF data),
then parse the first `DateTimeOriginal` value with the fixed pattern
(`strptime v pattern`; `.error` models `ValueError`).  `.ok (some t)`
is a successful `return`, `.ok none` falling through the loop, `.error`
an exception reaching the `except` handler. -/
def exif_attempt {T : Type} (tagName : ℕ → Option String)
    (strptime : String → String → Except Unit T)
    (exifRead : Except Unit (Option (List (ℕ × String)))) :
    Except Unit (Option T) :=
  match exifRead with
  | .error e => .error e
  | .ok none => .ok none
  | .ok (some entries) =>
    match findDateTimeOriginal tagName entries with
    | none => .ok none
    | some v =>
      match strptime v exifTimePattern with
      | .ok t => .ok (some t)
      | .error e => .error e

/-- Embedding of `get_photo_taken_time(image_path)` (source lines 19-43):
if the EXIF attempt returns a parsed time it is the result; otherwise
(no data, no `DateTimeOriginal`, or an exception, which is logged and
swallowed) the file modification time `mtime` is used, and if reading that
raises too (`.error`), the current wall-clock time `now`. -/
def get_photo_taken_time {T : Type} (tagName : ℕ → Option String)
    (strptime : String → String → Except Unit T)
    (exifRead : Except Unit (Option (List (ℕ × String))))
    (mtime : Except Unit T) (now : T) : T :=
  match exif_attempt tagName strptime exifRead with
  | .ok (some t) => t
  | .ok none =>
    match mtime with
    | .ok t => t
    | .error _ => now
  | .error _ =>
    match mtime with
    | .ok t => t
    | .error _ => now

/-! ## Metadata round-trip: `add_watermark` / `_save_image_with_metadata` -/

/-- A decoded photo as the pipeline sees it: the pixel buffer, the decoder's
`format` attribute and the `info` metadata dictionary (an association list;
Python dict iteration order is insertion order).  Metadata values
(byte strings) are modelled as `String`. -/
structure Photo where
  pixels : (ℤ × ℤ) → ℕ
  format : Option String
  info : List (String × String)

/-- Python `dict` lookup on the association-list model: the first binding
of the key, if any. -/
def dict_lookup (l : List (String × String)) (k : String) : Option String :=
  match l with
  | [] => none
  | kv :: rest => if kv.1 = k then some kv.2 else dict_lookup rest k

/-- Python `save_kwargs[key] = value`: overwrite the binding if the key is
present, append it otherwise. -/
def kw_set (l : List (String × String)) (k v : String) :
    List (String × String) :=
  if (dict_lookup l k).isSome then
    l.map (fun kv => if kv.1 = k then (k, v) else kv)
  else l ++ [(k, v)]

/-- The `format_map` with default `'JPEG'` of `_save_image_with_metadata`
(source lines 412-421), applied to the lower-cased output extension. -/
def format_map_lookup (ext : String) : String :=
  if ext = ".jpg" then "JPEG"
  else if ext = ".jpeg" then "JPEG"
  else if ext = ".png" then "PNG"
  else if ext = ".bmp" then "BMP"
  else if ext = ".tiff" then "TIFF"
  else if ext = ".tif" then "TIFF"
  else "JPEG"

/-- One step of the metadata-copying loop of `_save_image_with_metadata`
(source lines 403-405): add the entry unless its key is `'exif'` or already
present in the kwargs built so far. -/
def save_fold_step (kw : List (String × String)) (kv : String × String) :
    List (String × String) :=
  if kv.1 ≠ "exif" ∧ dict_lookup kw kv.1 = none then kw ++ [kv] else kw

/-- Embedding of `_save_image_with_metadata` (source lines 384-424): the
keyword arguments handed to `image.save`.  The EXIF blob is added first
when nonempty (Python truthiness of `bytes`), then every other info entry
not yet present, and finally `'format'` is set to the original format when
truthy, else inferred from the extension. -/
def save_image_kwargs (original_format : Option String)
    (original_info : List (String × String)) (original_exif : String)
    (ext : String) : List (String × String) :=
  let kw0 : List (String × String) :=
    if original_exif ≠ "" then [("exif", original_exif)] else []
  let kw1 := original_info.foldl save_fold_step kw0
  let fmt := match original_format with
    | some f => if f ≠ "" then f else format_map_lookup ext
    | none => format_map_lookup ext
  kw_set kw1 "format" fmt

/-- The watermark compositing step as it acts on a `Photo` record: PIL's
`ImageDraw.Draw(image)` / `draw.text` / `image.paste` write into the pixel
buffer; `raster` is the external rasteriser executing the drawing command
on the buffer.  Embedding of `_add_text_with_orientation`'s effect on the
photo (source lines 300-353). -/
def apply_render (raster : RenderAction → ((ℤ × ℤ) → ℕ) → ((ℤ × ℤ) → ℕ))
    (act : RenderAction) (p : Photo) : Photo :=
  { p with pixels := raster act p.pixels }

/-- Embedding of the metadata flow of `add_watermark` (source lines 57-91):
format, info and EXIF blob are captured at decode time
(`original_info = image.info.copy()`, `original_exif =
original_info.get('exif', b'')`), the watermark is composited, and the
photo is saved with the kwargs built from the captured values.  Returns the
mutated photo and the kwargs handed to `image.save`. -/
def add_watermark_model (raster : RenderAction → ((ℤ × ℤ) → ℕ) → ((ℤ × ℤ) → ℕ))
    (act : RenderAction) (photo : Photo) (ext : String) :
    Photo × List (String × String) :=
  let original_format := photo.format
  let original_info := photo.info
  let original_exif := (dict_lookup original_info "exif").getD ""
  let photo' := apply_render raster act photo
  (photo', save_image_kwargs original_format original_info original_exif ext)

end WatermarkPhotos

namespace WatermarkPhotos

/-! ## First sanity theorems (claims C6, C10, C1 evaluation) -/

/-- C6: given `(rawWidth, rawHeight, orientation)`, the visual dimensions are
the swapped pair `(rawHeight, rawWidth)` for every orientation tag in
`{5, 6, 7, 8}` and the unswapped pair for every other tag value (and for a
photo without EXIF data). -/
theorem c6_visual_dimensions (w h o : ℕ) :
    get_actual_dimensions w h (some o) =
      (if o = 5 ∨ o = 6 ∨ o = 7 ∨ o = 8 then (h, w) else (w, h)) ∧
    get_actual_dimensions w h none = (w, h) := by
  refine ⟨?_, rfl⟩
  simp only [get_actual_dimensions]
  split_ifs with h1 h2 h3 h4 h5 <;> simp_all

/-- C10: for every raw size, text-box size and orientation value (junk values
and a missing tag included), both coordinates returned by
`_calculate_watermark_position` are nonnegative, because each negative
intermediate coordinate is replaced by `max(0, rawDimension // 20)`. -/
theorem c10_position_nonneg (w h tw th : ℕ) (exif : Option ℕ) :
    0 ≤ (calculate_watermark_position w h tw th exif).1 ∧
    0 ≤ (calculate_watermark_position w h tw th exif).2 := by
  simp only [calculate_watermark_position]
  constructor <;> split_ifs <;> omega

/-- C1: evaluation of the position calculator at the failing input
`rawWidth = 100, rawHeight = 300, textWidth = textHeight = 50,
orientation = 5`.  The image is 1 pixel (indeed far) larger than the text
box in the post-swap visual sense (visual size `300 × 100`), yet the
returned x-coordinate is `210 ≥ rawWidth = 100`, so the guarantee
`0 ≤ x < rawWidth` fails and the watermark is drawn entirely off the
canvas. -/
theorem c1_out_of_bounds_eval :
    (50 < (get_actual_dimensions 100 300 (some 5)).1 ∧
     50 < (get_actual_dimensions 100 300 (some 5)).2) ∧
    calculate_watermark_position 100 300 50 50 (some 5) = (210, 240) ∧
    ¬((calculate_watermark_position 100 300 50 50 (some 5)).1 < (100 : ℤ)) := by
  decide

/-- Supporting fact (not itself one of the frozen claims): for the
non-dimension-swapping orientations 1-4 and raw dimensions at least 11 the
returned coordinates do satisfy `[0, rawWidth) × [0, rawHeight)`, for every
text-box size.  The failure exhibited by `c1_out_of_bounds_eval` is
confined to the swapped orientations 5-8 (and, for 2 and 3, to canvases of
width at most 10, where the margin of 10 exceeds the canvas). -/
lemma position_in_bounds_of_upright (w h tw th o : ℕ)
    (ho : o = 1 ∨ o = 2 ∨ o = 3 ∨ o = 4) (hw : 11 ≤ w) (hh : 11 ≤ h) :
    0 ≤ (calculate_watermark_position w h tw th (some o)).1 ∧
    (calculate_watermark_position w h tw th (some o)).1 < (w : ℤ) ∧
    0 ≤ (calculate_watermark_position w h tw th (some o)).2 ∧
    (calculate_watermark_position w h tw th (some o)).2 < (h : ℤ) := by
  rcases ho with rfl | rfl | rfl | rfl <;>
  · simp only [calculate_watermark_position, get_actual_dimensions,
      adjust_position_for_orientation, watermark_margin]
    norm_num
    split_ifs <;> omega

/-- C3: the renderer takes the rotated-scratch-layer path exactly for
orientation tags 3, 6 and 8, with the rotation angle the spec's table
assigns to the tag (180°, 90°, −90° respectively); every other tag value,
and a photo without EXIF data, draws the text directly at the computed
position with no rotation. -/
theorem c3_render_path (o : ℕ) (pos : ℤ × ℤ) :
    (o = 3 ∨ o = 6 ∨ o = 8 →
      add_text_with_orientation (some o) pos =
        .rotatedLayer pos (tag_rotation_angle o)) ∧
    (¬(o = 3 ∨ o = 6 ∨ o = 8) →
      add_text_with_orientation (some o) pos = .direct pos) ∧
    add_text_with_orientation none pos = .direct pos := by
  refine ⟨?_, ?_, rfl⟩
  · rintro (rfl | rfl | rfl) <;> rfl
  · intro h
    push_neg at h
    obtain ⟨h3, h6, h8⟩ := h
    simp [add_text_with_orientation, h3, h6, h8]

/-- Witness for `c3_render_path`: at tag 6 the rotated-layer path with
angle 90° is taken, at tag 7 the direct path. -/
theorem c3_render_path_witness :
    add_text_with_orientation (some 6) (1, 2) =
      .rotatedLayer (1, 2) (tag_rotation_angle 6) ∧
    add_text_with_orientation (some 7) (1, 2) = .direct (1, 2) :=
  ⟨(c3_render_path 6 (1, 2)).1 (Or.inr (Or.inl rfl)),
   (c3_render_path 7 (1, 2)).2.1 (by decide)⟩

/-- C4 counterexample: for orientation tag 7 the renderer draws the text
directly — it does not take the rotated-layer path with a 90° rotation as
the claim states. -/
theorem c4_orientation7_counterexample :
    add_text_with_orientation (some 7) (3, 4) = .direct (3, 4) ∧
    add_text_with_orientation (some 7) (3, 4) ≠ .rotatedLayer (3, 4) 90 := by
  decide

/-- C4 as amended: for a photo whose orientation tag is 7 the renderer
draws the text directly onto the pixel buffer with no glyph rotation (so
the glyphs do not appear upright to a viewer applying the tag). -/
theorem c4_orientation7_direct (pos : ℤ × ℤ) :
    add_text_with_orientation (some 7) pos = .direct pos := rfl

/-- C2: evaluation of position computation plus rendering at the failing
input `rawWidth = 200, rawHeight = 100, textWidth = 20, textHeight = 10,
orientation = 3`.  The canvas exceeds the text box by far more than 1 pixel
in the visual sense, the computed position is `(10, 10)` and the 180°
scratch-layer path is taken; pixel `(170, 80)` is then a rendered text
pixel, but the viewer perceives it at visual x-coordinate
`29 < visualWidth − margin − textWidth = 170`: the text lands in the visual
top-left, not within the bottom-right margin region. -/
theorem c2_misplaced_eval :
    (20 < (get_actual_dimensions 200 100 (some 3)).1 ∧
     10 < (get_actual_dimensions 200 100 (some 3)).2) ∧
    calculate_watermark_position 200 100 20 10 (some 3) = (10, 10) ∧
    rendered_pixel 20 10 200 100
      (add_text_with_orientation (some 3)
        (calculate_watermark_position 200 100 20 10 (some 3))) (170, 80) ∧
    (raw_to_visual 3 200 100 (170, 80)).1 <
      ((get_actual_dimensions 200 100 (some 3)).1 : ℤ) -
        (watermark_margin 200 100 : ℤ) - 20 := by
  decide

/-- Supporting fact (not itself one of the frozen claims): for the
direct-draw, non-dimension-swapping orientations 1, 2 and 4, when the
visual (= raw) canvas exceeds the text box by at least the margin in each
dimension, the rendered text pixels are exactly those whose visual position
lies in the bottom-right margin box, at distance exactly `margin` from the
visual right and bottom edges.  The claimed placement property of C2 does
hold on these tags. -/
lemma direct_orientations_bottom_right (o w h tw th : ℕ) (p : ℤ × ℤ)
    (ho : o = 1 ∨ o = 2 ∨ o = 4)
    (hx : tw + watermark_margin w h ≤ w) (hy : th + watermark_margin w h ≤ h) :
    rendered_pixel tw th w h
      (add_text_with_orientation (some o)
        (calculate_watermark_position w h tw th (some o))) p ↔
      ((w : ℤ) - (watermark_margin w h : ℤ) - (tw : ℤ) ≤ (raw_to_visual o w h p).1 ∧
       (raw_to_visual o w h p).1 < (w : ℤ) - (watermark_margin w h : ℤ) ∧
       (h : ℤ) - (watermark_margin w h : ℤ) - (th : ℤ) ≤ (raw_to_visual o w h p).2 ∧
       (raw_to_visual o w h p).2 < (h : ℤ) - (watermark_margin w h : ℤ)) := by
  rcases ho with rfl | rfl | rfl <;>
  · simp only [calculate_watermark_position, get_actual_dimensions,
      adjust_position_for_orientation, add_text_with_orientation,
      rendered_pixel, raw_to_visual, in_canvas, in_text_box]
    norm_num
    split_ifs <;> omega

/-! ## Font sizer theorems (claims C5, C7) -/

/-- Truncating a real square root commutes with first taking the integer
floor: for `0 ≤ x` and integer `n`, `n ≤ √x ↔ n² ≤ x ↔ n² ≤ ⌊x⌋`. -/
lemma nat_sqrt_floor_eq_floor_real_sqrt {x : ℝ} (hx : 0 ≤ x) :
    Nat.sqrt ⌊x⌋₊ = ⌊Real.sqrt x⌋₊ := by
  apply le_antisymm
  · apply Nat.le_floor
    have h1 : ((Nat.sqrt ⌊x⌋₊ : ℕ) : ℝ) * ((Nat.sqrt ⌊x⌋₊ : ℕ) : ℝ) ≤ x := by
      calc ((Nat.sqrt ⌊x⌋₊ : ℕ) : ℝ) * ((Nat.sqrt ⌊x⌋₊ : ℕ) : ℝ)
          = ((Nat.sqrt ⌊x⌋₊ * Nat.sqrt ⌊x⌋₊ : ℕ) : ℝ) := by push_cast; ring
        _ ≤ ((⌊x⌋₊ : ℕ) : ℝ) := by exact_mod_cast Nat.sqrt_le ⌊x⌋₊
        _ ≤ x := Nat.floor_le hx
    calc ((Nat.sqrt ⌊x⌋₊ : ℕ) : ℝ)
        = Real.sqrt (((Nat.sqrt ⌊x⌋₊ : ℕ) : ℝ) * ((Nat.sqrt ⌊x⌋₊ : ℕ) : ℝ)) :=
          (Real.sqrt_mul_self (by positivity)).symm
      _ ≤ Real.sqrt x := Real.sqrt_le_sqrt h1
  · apply Nat.le_sqrt.mpr
    apply Nat.le_floor
    calc ((⌊Real.sqrt x⌋₊ * ⌊Real.sqrt x⌋₊ : ℕ) : ℝ)
        = ((⌊Real.sqrt x⌋₊ : ℕ) : ℝ) * ((⌊Real.sqrt x⌋₊ : ℕ) : ℝ) := by push_cast; ring
      _ ≤ Real.sqrt x * Real.sqrt x := by
          have := Nat.floor_le (Real.sqrt_nonneg x)
          exact mul_le_mul this this (by positivity) (Real.sqrt_nonneg x)
      _ = x := Real.mul_self_sqrt hx

/-- The exact rational value of the source's float expression
`img_area * 0.03 / (len(text) * 0.6 * 2)`, floored: it is the integer
division `w * h / (40 * L)`, since `0.03 / 1.2 = 1 / 40`. -/
lemma floor_font_ratio (L w h : ℕ) :
    ⌊((w : ℚ) * (h : ℚ) * (3 / 100)) / ((L : ℚ) * (6 / 10) * 2)⌋₊ =
      w * h / (40 * L) := by
  rcases Nat.eq_zero_or_pos L with hL | hL
  · subst hL; simp
  · have hL' : ((L : ℕ) : ℚ) ≠ 0 := Nat.cast_ne_zero.mpr (by omega)
    have hq : ((w : ℚ) * (h : ℚ) * (3 / 100)) / ((L : ℚ) * (6 / 10) * 2)
        = ((w * h : ℕ) : ℚ) / ((40 * L : ℕ) : ℚ) := by
      push_cast
      field_simp
      ring
    rw [hq, Nat.floor_div_nat, Nat.floor_natCast]

/-- Closed form of the font-size computation over `ℕ`. -/
lemma font_size_closed_form (L w h : ℕ) :
    calculate_optimal_font_size L w h =
      max 20 (min (Nat.sqrt (w * h / (40 * L))) (min w h / 10)) := by
  simp only [calculate_optimal_font_size]
  rw [floor_font_ratio]

/-- C5: for text length ≥ 1 and image dimensions ≥ 1 the font size is the
truncation of `sqrt(0.03 · imgWidth · imgHeight / (textLength · 0.6 · 2))`
clamped to `[20, min(imgWidth, imgHeight) / 10]` (integer division, clamp
written so the lower bound wins), and whenever the upper bound falls below
20 the result is 20. -/
theorem c5_font_size (L w h : ℕ) (hL : 1 ≤ L) (hw : 1 ≤ w) (hh : 1 ≤ h) :
    calculate_optimal_font_size L w h =
      max 20 (min
        ⌊Real.sqrt (((3 : ℝ) / 100) * (w : ℝ) * (h : ℝ) /
          ((L : ℝ) * (6 / 10) * 2))⌋₊
        (min w h / 10)) ∧
    (min w h / 10 < 20 → calculate_optimal_font_size L w h = 20) := by
  have hx : (0 : ℝ) ≤ ((3 : ℝ) / 100) * (w : ℝ) * (h : ℝ) /
      ((L : ℝ) * (6 / 10) * 2) := by positivity
  have hreal : ⌊Real.sqrt (((3 : ℝ) / 100) * (w : ℝ) * (h : ℝ) /
      ((L : ℝ) * (6 / 10) * 2))⌋₊ = Nat.sqrt (w * h / (40 * L)) := by
    rw [← nat_sqrt_floor_eq_floor_real_sqrt hx]
    congr 1
    have hL' : ((L : ℕ) : ℝ) ≠ 0 := Nat.cast_ne_zero.mpr (by omega)
    have hr : ((3 : ℝ) / 100) * (w : ℝ) * (h : ℝ) / ((L : ℝ) * (6 / 10) * 2)
        = ((w * h : ℕ) : ℝ) / ((40 * L : ℕ) : ℝ) := by
      push_cast
      field_simp
      ring
    rw [hr, Nat.floor_div_nat, Nat.floor_natCast]
  constructor
  · rw [font_size_closed_form, hreal]
  · intro hub
    rw [font_size_closed_form]
    omega

/-- Witness for `c5_font_size` at the spec's end-to-end scenario
(19-character timestamp on a 4000 × 3000 photo). -/
theorem c5_font_size_witness :
    calculate_optimal_font_size 19 4000 3000 =
      max 20 (min
        ⌊Real.sqrt (((3 : ℝ) / 100) * ((4000 : ℕ) : ℝ) * ((3000 : ℕ) : ℝ) /
          (((19 : ℕ) : ℝ) * (6 / 10) * 2))⌋₊
        (min 4000 3000 / 10)) ∧
    (min 4000 3000 / 10 < 20 → calculate_optimal_font_size 19 4000 3000 = 20) :=
  c5_font_size 19 4000 3000 (by norm_num) (by norm_num) (by norm_num)

/-- C7: the font size is monotonically non-increasing in the text length
(for fixed image dimensions), and monotonically non-decreasing in the
smaller image dimension when the other dimension is held fixed. -/
theorem c7_font_size_monotone :
    (∀ L L' w h : ℕ, 1 ≤ L → L ≤ L' →
      calculate_optimal_font_size L' w h ≤ calculate_optimal_font_size L w h) ∧
    (∀ L w h h' : ℕ, h ≤ h' → h' ≤ w →
      calculate_optimal_font_size L w h ≤ calculate_optimal_font_size L w h') := by
  constructor
  · intro L L' w h hL hLL
    rw [font_size_closed_form, font_size_closed_form]
    have hs : Nat.sqrt (w * h / (40 * L')) ≤ Nat.sqrt (w * h / (40 * L)) :=
      Nat.sqrt_le_sqrt (Nat.div_le_div_left (by omega) (by omega))
    exact max_le_max le_rfl (min_le_min hs le_rfl)
  · intro L w h h' hhh hw
    rw [font_size_closed_form, font_size_closed_form]
    have hs : Nat.sqrt (w * h / (40 * L)) ≤ Nat.sqrt (w * h' / (40 * L)) :=
      Nat.sqrt_le_sqrt (Nat.div_le_div_right (Nat.mul_le_mul le_rfl hhh))
    have hu : min w h / 10 ≤ min w h' / 10 :=
      Nat.div_le_div_right (min_le_min le_rfl hhh)
    exact max_le_max le_rfl (min_le_min hs hu)

/-- Witness for `c7_font_size_monotone`: longer text gives a no-larger
size, a taller portrait-side gives a no-smaller size. -/
theorem c7_font_size_monotone_witness :
    calculate_optimal_font_size 25 4000 3000 ≤
      calculate_optimal_font_size 19 4000 3000 ∧
    calculate_optimal_font_size 19 4000 2000 ≤
      calculate_optimal_font_size 19 4000 3000 :=
  ⟨c7_font_size_monotone.1 19 25 4000 3000 (by norm_num) (by norm_num),
   c7_font_size_monotone.2 19 4000 2000 3000 (by norm_num) (by norm_num)⟩

/-! ## Timestamp resolver theorem (claim C8) -/

/-- C8: the resolver always returns a timestamp and never propagates an
error.  When the EXIF scan finds a `DateTimeOriginal` entry, its value is
parsed with the fixed pattern `%Y:%m:%d %H:%M:%S` (i.e.
`YYYY:MM:DD HH:MM:SS`) and a successful parse is returned; in every other
outcome — metadata-read error, no data, no such entry, or a parse error —
the result is the file modification time when available and the current
wall-clock time otherwise. -/
theorem c8_resolver_fallback_chain (T : Type) (tagName : ℕ → Option String)
    (strptime : String → String → Except Unit T)
    (exifRead : Except Unit (Option (List (ℕ × String))))
    (mtime : Except Unit T) (now : T) :
    (∀ entries v, exifRead = .ok (some entries) →
      findDateTimeOriginal tagName entries = some v →
      exif_attempt tagName strptime exifRead =
        (strptime v exifTimePattern).map some) ∧
    (∀ t, exif_attempt tagName strptime exifRead = .ok (some t) →
      get_photo_taken_time tagName strptime exifRead mtime now = t) ∧
    (∀ tm, (∀ t, exif_attempt tagName strptime exifRead ≠ .ok (some t)) →
      mtime = .ok tm →
      get_photo_taken_time tagName strptime exifRead mtime now = tm) ∧
    ((∀ t, exif_attempt tagName strptime exifRead ≠ .ok (some t)) →
      mtime = .error () →
      get_photo_taken_time tagName strptime exifRead mtime now = now) := by
  refine ⟨?_, ?_, ?_, ?_⟩
  · rintro entries v rfl hfind
    simp only [exif_attempt, hfind]
    cases strptime v exifTimePattern <;> rfl
  · intro t ht
    simp only [get_photo_taken_time, ht]
  · intro tm hne hm
    cases hea : exif_attempt tagName strptime exifRead with
    | ok o =>
      cases o with
      | some t => exact absurd hea (hne t)
      | none => simp only [get_photo_taken_time, hea, hm]
    | error e => simp only [get_photo_taken_time, hea, hm]
  · intro hne hm
    cases hea : exif_attempt tagName strptime exifRead with
    | ok o =>
      cases o with
      | some t => exact absurd hea (hne t)
      | none => simp only [get_photo_taken_time, hea, hm]
    | error e => simp only [get_photo_taken_time, hea, hm]

/-- Witness for `c8_resolver_fallback_chain`: a concrete EXIF table whose
`DateTimeOriginal` entry parses resolves to the parsed value. -/
theorem c8_resolver_fallback_chain_witness :
    get_photo_taken_time
      (fun n => if n = 36867 then some "DateTimeOriginal" else none)
      (fun v pat =>
        if pat = exifTimePattern ∧ v = "2024:03:15 10:30:00" then
          Except.ok (42 : ℕ)
        else Except.error ())
      (Except.ok (some [(306, "2024:03:15 11:00:00"),
        (36867, "2024:03:15 10:30:00")]))
      (Except.ok 7) 0 = 42 :=
  (c8_resolver_fallback_chain ℕ _ _ _ _ _).2.1 42 (by rfl)

/-! ## Metadata round-trip theorems (claim C9) -/

/-- Lookup in a concatenation finds the first list's binding when present. -/
lemma dict_lookup_append (l₁ l₂ : List (String × String)) (k : String) :
    dict_lookup (l₁ ++ l₂) k =
      if (dict_lookup l₁ k).isSome then dict_lookup l₁ k
      else dict_lookup l₂ k := by
  induction l₁ with
  | nil => simp [dict_lookup]
  | cons kv rest ih =>
    simp only [List.cons_append, dict_lookup]
    by_cases h1 : kv.1 = k <;> simp [h1, ih]

/-- The metadata-copying loop neither hides nor changes the first binding
of any key other than `'exif'`: afterwards a key resolves to its binding in
the kwargs built so far if present, else to its first binding in the copied
info dict. -/
lemma fold_lookup_ne_exif (info : List (String × String))
    (kw : List (String × String)) (k : String) (hk : k ≠ "exif") :
    dict_lookup (info.foldl save_fold_step kw) k =
      if (dict_lookup kw k).isSome then dict_lookup kw k
      else dict_lookup info k := by
  induction info generalizing kw with
  | nil =>
    simp only [List.foldl_nil, dict_lookup]
    cases h : dict_lookup kw k <;> simp [h]
  | cons kv rest ih =>
    rw [List.foldl_cons]
    by_cases hc : kv.1 ≠ "exif" ∧ dict_lookup kw kv.1 = none
    · rw [show save_fold_step kw kv = kw ++ [kv] from if_pos hc, ih,
        dict_lookup_append]
      by_cases hkk : kv.1 = k
      · subst hkk
        rw [hc.2]
        simp [dict_lookup]
      · cases h : dict_lookup kw k <;> simp [h, dict_lookup, hkk]
    · rw [show save_fold_step kw kv = kw from if_neg hc, ih]
      by_cases hkk : kv.1 = k
      · have hA : kv.1 ≠ "exif" := by rw [hkk]; exact hk
        have hx : dict_lookup kw k ≠ none := by
          rw [← hkk]; exact fun hn => hc ⟨hA, hn⟩
        cases h : dict_lookup kw k with
        | none => exact absurd h hx
        | some x => simp [h]
      · cases h : dict_lookup kw k <;> simp [h, dict_lookup, hkk]

/-- The metadata-copying loop never touches the `'exif'` binding of the
kwargs. -/
lemma fold_preserves_exif (info : List (String × String))
    (kw : List (String × String)) :
    dict_lookup (info.foldl save_fold_step kw) "exif" =
      dict_lookup kw "exif" := by
  induction info generalizing kw with
  | nil => rfl
  | cons kv rest ih =>
    rw [List.foldl_cons, ih]
    unfold save_fold_step
    split_ifs with hc
    · rw [dict_lookup_append]
      have hne : kv.1 ≠ "exif" := hc.1
      cases h : dict_lookup kw "exif" <;> simp_all [dict_lookup]
    · rfl

/-- Overwriting one key of an association list leaves every other key's
binding unchanged (map branch of `kw_set`). -/
lemma dict_lookup_map_set (l : List (String × String)) (k v k' : String)
    (h : k' ≠ k) :
    dict_lookup (l.map fun kv => if kv.1 = k then (k, v) else kv) k' =
      dict_lookup l k' := by
  induction l with
  | nil => rfl
  | cons kv rest ih =>
    have e1 : k ≠ k' := fun hh => h hh.symm
    by_cases hkv : kv.1 = k
    · have e2 : kv.1 ≠ k' := by rw [hkv]; exact e1
      simp only [List.map_cons, if_pos hkv, dict_lookup]
      simp [e1, e2, ih]
    · simp only [List.map_cons, if_neg hkv, dict_lookup, ih]

/-- Python `kwargs[k] = v` leaves every other key's binding unchanged. -/
lemma kw_set_lookup_ne (l : List (String × String)) (k v k' : String)
    (h : k' ≠ k) :
    dict_lookup (kw_set l k v) k' = dict_lookup l k' := by
  unfold kw_set
  split_ifs with hs
  · exact dict_lookup_map_set l k v k' h
  · rw [dict_lookup_append]
    have h2 : dict_lookup [(k, v)] k' = none := by simp [dict_lookup, Ne.symm h]
    rw [h2]
    cases hl : dict_lookup l k' <;> simp [hl]

/-- C9 counterexample: an info entry keyed `'format'` is not passed to save
unchanged — the save-format parameter (derived from the decoder's format
tag) overwrites it.  With `info = [('format', 'X')]` and decoder format
`'JPEG'`, the kwargs handed to the encoder bind `'format'` to `'JPEG'`,
not to the recorded info value `'X'`. -/
theorem c9_metadata_counterexample :
    (add_watermark_model (fun _ px => px) (.direct (0, 0))
        (Photo.mk (fun _ => 0) (some "JPEG") [("format", "X")]) ".jpg").2 =
      [("format", "JPEG")] ∧
    dict_lookup [("format", "X")] "format" = some "X" := by
  constructor <;> rfl

/-- C9 as amended: the watermark compositing step modifies only the pixel
buffer, never the metadata; the EXIF blob captured at decode time, when
nonempty, and every other captured info entry except one keyed `'format'`
(which the save-format parameter overrides) are handed to the encoder
unchanged. -/
theorem c9_metadata_roundtrip
    (raster : RenderAction → ((ℤ × ℤ) → ℕ) → ((ℤ × ℤ) → ℕ))
    (act : RenderAction) (photo : Photo) (ext : String) (k : String) :
    ((add_watermark_model raster act photo ext).1.info = photo.info ∧
     (add_watermark_model raster act photo ext).1.format = photo.format) ∧
    (k ≠ "exif" → k ≠ "format" →
      dict_lookup (add_watermark_model raster act photo ext).2 k =
        dict_lookup photo.info k) ∧
    ((dict_lookup photo.info "exif").getD "" ≠ "" →
      dict_lookup (add_watermark_model raster act photo ext).2 "exif" =
        dict_lookup photo.info "exif") := by
  refine ⟨⟨rfl, rfl⟩, ?_, ?_⟩
  · intro hke hkf
    simp only [add_watermark_model, save_image_kwargs]
    rw [kw_set_lookup_ne _ _ _ _ hkf, fold_lookup_ne_exif _ _ _ hke]
    have e1 : ("exif" : String) ≠ k := fun hh => hke hh.symm
    by_cases he : (dict_lookup photo.info "exif").getD "" ≠ ""
    · rw [if_pos he]
      have h2 : dict_lookup
          [("exif", (dict_lookup photo.info "exif").getD "")] k = none := by
        simp [dict_lookup, e1]
      rw [h2]
      simp
    · rw [if_neg he]
      simp [dict_lookup]
  · intro he
    simp only [add_watermark_model, save_image_kwargs]
    rw [kw_set_lookup_ne _ _ _ _ (by decide : ("exif" : String) ≠ "format"),
      fold_preserves_exif, if_pos he]
    cases hx : dict_lookup photo.info "exif" with
    | none => rw [hx] at he; simp at he
    | some x => simp [dict_lookup]

/-- Witness for `c9_metadata_roundtrip`: a concrete photo whose `'dpi'`
entry and nonempty `'exif'` blob round-trip into the save kwargs. -/
theorem c9_metadata_roundtrip_witness :
    dict_lookup (add_watermark_model (fun _ px => px) (.direct (0, 0))
        (Photo.mk (fun _ => 0) (some "JPEG")
          [("exif", "E"), ("dpi", "72")]) ".jpg").2 "dpi" =
      dict_lookup [("exif", "E"), ("dpi", "72")] "dpi" ∧
    dict_lookup (add_watermark_model (fun _ px => px) (.direct (0, 0))
        (Photo.mk (fun _ => 0) (some "JPEG")
          [("exif", "E"), ("dpi", "72")]) ".jpg").2 "exif" =
      dict_lookup [("exif", "E"), ("dpi", "72")] "exif" :=
  ⟨(c9_metadata_roundtrip _ _ _ _ "dpi").2.1 (by decide) (by decide),
   (c9_metadata_roundtrip _ _ _ _ "dpi").2.2 (by decide)⟩

end WatermarkPhotos
